import Mathlib

/-!
Verification of the YouTube-transcript-to-article pipeline (`main.py`).

The pure core of the program is shallowly embedded here:

* `extract_video_id` — the ordered regex search over the three patterns
  `(?:youtube\.com\/watch\?v=|youtu.be\/)([\w-]+)`,
  `youtube\.com\/embed\/([\w-]+)`, `youtube\.com\/v\/([\w-]+)`.
  Each pattern is embedded as a matcher on a suffix (`...At`), and
  `reSearch` scans suffixes left to right, which is `re.search` semantics.
  The unescaped dot of `youtu.be` matches any character except a newline.
  Python word characters `\w` are modelled by their alphanumeric and
  underscore core.
* `format_timestamp` — Python floats are modelled as exact rationals;
  `//`, `%` and `int()` are embedded as `pyFloorDiv`, `pyMod`, `pyInt`,
  and the `f"{n:02d}"` formatting as `pad2`.
* `get_transcript` — the two external calls (transcript fetch, prompt
  pull plus chat completion) are oracle parameters returning
  `Except String`; the `try/except` classification of the stringified
  exception message is `handleErrorMsg`, applied to whichever step fails.
* `mainPipeline` — the render step of `main()`: for a non-empty
  transcript it produces the displayed article text, the two download
  artifacts and the table rows; an empty transcript fails at the
  dataframe column selection (a `KeyError` on the `start` column) and
  surfaces that error; on failure only the error string.
-/

/-- Python `\w` (word character), modelled on its alphanumeric plus
underscore core. -/
def isWordChar (c : Char) : Bool :=
  c.isAlphanum || c = '_'

/-- The character class `[\w-]` used by all three capture groups. -/
def isWordDash (c : Char) : Bool :=
  isWordChar c || c = '-'

/-- Match a literal pattern at the front of the input, returning the
remainder on success. -/
def stripPrefixL : List Char → List Char → Option (List Char)
  | [], s => some s
  | _ :: _, [] => none
  | p :: ps, c :: cs => if p = c then stripPrefixL ps cs else none

/-- The capture group `([\w-]+)`: the maximal run of word/hyphen
characters, failing when it is empty. -/
def captureIdent (s : List Char) : Option (List Char) :=
  let g := s.takeWhile (fun c => isWordDash c)
  if g.isEmpty then none else some g

/-- First alternative of pattern 1: the literal `youtube\.com\/watch\?v=`
followed by the capture group. -/
def matchWatchAt (s : List Char) : Option (List Char) :=
  match stripPrefixL "youtube.com/watch?v=".data s with
  | some r => captureIdent r
  | none => none

/-- The tail of the second alternative of pattern 1: the literal `be\/`
followed by the capture group. -/
def beTail (r : List Char) : Option (List Char) :=
  match stripPrefixL "be/".data r with
  | some r2 => captureIdent r2
  | none => none

/-- Second alternative of pattern 1: `youtu.be\/` where the dot is
unescaped, so it matches any character other than a newline. -/
def matchShortAt (s : List Char) : Option (List Char) :=
  match stripPrefixL "youtu".data s with
  | some (d :: r) =>
    if d = '\n' then none
    else beTail r
  | _ => none

/-- Pattern `(?:youtube\.com\/watch\?v=|youtu.be\/)([\w-]+)` at one
position: the first alternative, then (backtracking) the second. -/
def pat1At (s : List Char) : Option (List Char) :=
  match matchWatchAt s with
  | some g => some g
  | none => matchShortAt s

/-- Pattern `youtube\.com\/embed\/([\w-]+)` at one position. -/
def pat2At (s : List Char) : Option (List Char) :=
  match stripPrefixL "youtube.com/embed/".data s with
  | some r => captureIdent r
  | none => none

/-- Pattern `youtube\.com\/v\/([\w-]+)` at one position. -/
def pat3At (s : List Char) : Option (List Char) :=
  match stripPrefixL "youtube.com/v/".data s with
  | some r => captureIdent r
  | none => none

/-- `re.search`: try the pattern at each position from the left, taking
the first success. -/
def reSearch (p : List Char → Option (List Char)) : List Char → Option (List Char)
  | [] => p []
  | c :: t =>
    match p (c :: t) with
    | some g => some g
    | none => reSearch p t

/-- `extract_video_id` from `main.py`: try the three patterns in order,
returning the first capture, or nothing when none matches. -/
def extract_video_id (url : String) : Option String :=
  match reSearch pat1At url.data with
  | some g => some (String.mk g)
  | none =>
    match reSearch pat2At url.data with
    | some g => some (String.mk g)
    | none =>
      match reSearch pat3At url.data with
      | some g => some (String.mk g)
      | none => none

/-- Python `a or b` for an optional string `a`: `b` when `a` is `None`
or the empty string (both falsy). -/
def pyOrStr (a : Option String) (b : String) : String :=
  match a with
  | some s => if s = "" then b else s
  | none => b

/-- Line 53 of `main.py`: `extract_video_id(video_url) or video_url`. -/
def resolveVideoId (video_url : String) : String :=
  pyOrStr (extract_video_id video_url) video_url

/-- Python `f"{n:02d}"`: decimal rendering left-padded with zeros to
width 2 (the sign counts toward the width). -/
def pad2 (n : ℤ) : String :=
  let s := toString n
  if s.length < 2 then "0" ++ s else s

/-- Floor of a rational, written explicitly (numerator divided by the
positive denominator with ℤ Euclidean division) so that the kernel can
evaluate it; equal to `Int.floor` by `ratFloor_eq`. -/
def ratFloor (q : ℚ) : ℤ :=
  q.num / (q.den : ℤ)

/-- Ceiling of a rational, via `ratFloor`. -/
def ratCeil (q : ℚ) : ℤ :=
  -ratFloor (-q)

/-- Python float floor-division `a // b` (the result is again a float,
modelled as the rational value of the floor). -/
def pyFloorDiv (a b : ℚ) : ℚ :=
  (ratFloor (a / b) : ℚ)

/-- Python float modulo `a % b`: `a - b * (a // b)`. -/
def pyMod (a b : ℚ) : ℚ :=
  a - b * (ratFloor (a / b) : ℚ)

/-- Python `int()` on a float: truncation toward zero. -/
def pyInt (q : ℚ) : ℤ :=
  if 0 ≤ q then ratFloor q else ratCeil q

/-- `format_timestamp` from `main.py`, floats modelled as exact
rationals:
`hours = int(seconds // 3600)`, `minutes = int((seconds % 3600) // 60)`,
`seconds = int(seconds % 60)`, rendered `f"{hours:02d}:{minutes:02d}:{seconds:02d}"`. -/
def format_timestamp (seconds : ℚ) : String :=
  let hours := pyInt (pyFloorDiv seconds 3600)
  let minutes := pyInt (pyFloorDiv (pyMod seconds 3600) 60)
  let secs := pyInt (pyMod seconds 60)
  pad2 hours ++ ":" ++ pad2 minutes ++ ":" ++ pad2 secs

/-- One caption entry as returned by the transcript service: the dict
`{text, start, duration}`, with the float fields modelled as exact
rationals. -/
structure CaptionEntry where
  text : String
  start : ℚ
  duration : ℚ
deriving DecidableEq

/-- Lines 56-62 of `main.py`: each entry becomes `f"[{timestamp}] {text}"`
with `timestamp = format_timestamp(entry.start)`, and the lines are
joined with a newline. -/
def formatTranscript (transcript_list : List CaptionEntry) : String :=
  String.intercalate "\n" (transcript_list.map (fun entry =>
    "[" ++ format_timestamp entry.start ++ "] " ++ entry.text))

/-- Boolean list-prefix test on characters. -/
def isPreL : List Char → List Char → Bool
  | [], _ => true
  | _ :: _, [] => false
  | a :: as, b :: bs => a = b && isPreL as bs

/-- Boolean substring test on character lists: the needle occurs as a
contiguous run. -/
def isSubL (needle : List Char) : List Char → Bool
  | [] => isPreL needle []
  | c :: t => isPreL needle (c :: t) || isSubL needle t

/-- Python `needle in hay` on strings. -/
def pyIn (needle hay : String) : Bool :=
  isSubL needle.data hay.data

/-- A single-quote character as a string (the quotes around the language
code in the not-found message). -/
def squo : String :=
  String.singleton (Char.ofNat 39)

/-- Lines 72-78 of `main.py`: the `except` block classifies the
stringified exception by substring membership and rebuilds the surfaced
message. -/
def handleErrorMsg (language error_msg : String) : String :=
  if pyIn "TranscriptsDisabled" error_msg then
    "Transcripts are disabled for this video."
  else if pyIn "NoTranscriptFound" error_msg then
    "No transcript found in language " ++ squo ++ language ++ squo ++ "."
  else
    "Error fetching transcript: " ++ error_msg

/-- `get_transcript` from `main.py`. The transcript service call and the
article generation (prompt pull plus chat-completion invoke, which the
code collapses into one fallible step producing the article text) are
oracle parameters; a failure of either is an exception whose
stringified message is the `Except.error` payload, and the surrounding
`try/except` maps it through `handleErrorMsg`. -/
def get_transcript
    (fetch : String → String → Except String (List CaptionEntry))
    (generate : String → Except String String)
    (video_url : String) (language : String) :
    Except String (List CaptionEntry × String) :=
  let video_id := resolveVideoId video_url
  match fetch video_id language with
  | Except.error e => Except.error (handleErrorMsg language e)
  | Except.ok transcript_list =>
    match generate (formatTranscript transcript_list) with
    | Except.error e => Except.error (handleErrorMsg language e)
    | Except.ok article => Except.ok (transcript_list, article)

/-- A lowercase hexadecimal digit, as used by the `\\uXXXX` escapes of
`json.dumps`. -/
def jsonHexDigit (n : Nat) : Char :=
  if n < 10 then Char.ofNat (48 + n) else Char.ofNat (87 + n)

/-- Four lowercase hexadecimal digits. -/
def jsonU4 (n : Nat) : String :=
  String.mk [jsonHexDigit (n / 4096 % 16), jsonHexDigit (n / 256 % 16),
    jsonHexDigit (n / 16 % 16), jsonHexDigit (n % 16)]

/-- One character as escaped by `json.dumps` with its default
`ensure_ascii=True`: the seven two-character short escapes, `\\u00XX`
for the remaining control characters, `\\uXXXX` (a surrogate pair
beyond the basic plane) for every character outside printable ASCII,
and the character itself for the printable ASCII range. -/
def jsonEscapeChar (c : Char) : String :=
  if c = '"' then "\\\""
  else if c = '\\' then "\\\\"
  else if c = '\n' then "\\n"
  else if c = '\t' then "\\t"
  else if c = '\r' then "\\r"
  else if c = Char.ofNat 8 then "\\b"
  else if c = Char.ofNat 12 then "\\f"
  else if c.toNat < 32 ∨ 127 ≤ c.toNat then
    if c.toNat < 65536 then "\\u" ++ jsonU4 c.toNat
    else
      "\\u" ++ jsonU4 (55296 + (c.toNat - 65536) / 1024)
        ++ "\\u" ++ jsonU4 (56320 + (c.toNat - 65536) % 1024)
  else String.singleton c

/-- JSON string literal. -/
def jsonStrLit (s : String) : String :=
  "\"" ++ String.join (s.data.map jsonEscapeChar) ++ "\""

/-- One caption entry serialized as `json.dumps` with `indent=2` renders
it inside the top-level array: an object with the fields `text`,
`start`, `duration` in that order, its lines indented two levels. The
decimal rendering of the float fields is the `numRepr` parameter. -/
def entryJson (numRepr : ℚ → String) (e : CaptionEntry) : String :=
  "  \x7b\n    \"text\": " ++ jsonStrLit e.text
    ++ ",\n    \"start\": " ++ numRepr e.start
    ++ ",\n    \"duration\": " ++ numRepr e.duration
    ++ "\n  \x7d"

/-- `json.dumps(raw_transcript, indent=2)` for the list of caption
entries (line 122 of `main.py`). -/
def jsonDumps (numRepr : ℚ → String) (l : List CaptionEntry) : String :=
  match l with
  | [] => "[]"
  | _ => "[\n" ++ String.intercalate ",\n" (l.map (entryJson numRepr)) ++ "\n]"

/-- Everything `main()` renders on success: the article text area, the
TXT and JSON download payloads, and the dataframe rows
`(timestamp, text, duration)` in order. -/
structure RenderOutput where
  articleText : String
  txtDownload : String
  jsonDownload : String
  tableRows : List (String × String × ℚ)

/-- Lines 97-137 of `main.py`: run `get_transcript`; on success the
article text area and the two download buttons are emitted and then the
dataframe is built. For a non-empty transcript the table of
`(timestamp, text, duration)` rows renders; for an empty transcript
`pd.DataFrame([])` has no columns, so selecting the `start` column
raises a `KeyError` whose stringification (the column name in single
quotes) the outer `except` displays, and no table renders. The model
returns the final outcome of the request: the full render for a
non-empty transcript, otherwise the error string (widgets already
emitted before that failure are outside the model). -/
def mainPipeline (numRepr : ℚ → String)
    (fetch : String → String → Except String (List CaptionEntry))
    (generate : String → Except String String)
    (url language : String) : Except String RenderOutput :=
  match get_transcript fetch generate url language with
  | Except.error e => Except.error e
  | Except.ok (raw_transcript, formatted_transcript) =>
    match raw_transcript with
    | [] => Except.error (squo ++ "start" ++ squo)
    | _ :: _ =>
      Except.ok
        { articleText := formatted_transcript
          txtDownload := formatted_transcript
          jsonDownload := jsonDumps numRepr raw_transcript
          tableRows := raw_transcript.map
            (fun e => (format_timestamp e.start, e.text, e.duration)) }

/-- The shape of the text allowed after the captured identifier in the
C1 statement: query-parameter-like characters (word/hyphen characters
plus the separators of a query string), starting with a character
outside the capture class so that the group stops exactly at the end of
the identifier. -/
def restOkB (rest : List Char) : Bool :=
  rest.all (fun c => isWordDash c || c = '&' || c = '=')
    && (match rest with
        | [] => true
        | c :: _ => !(isWordDash c))


theorem ratFloor_eq (q : ℚ) : ratFloor q = ⌊q⌋ := by
  unfold ratFloor
  exact Rat.floor_def.symm

theorem ratCeil_eq (q : ℚ) : ratCeil q = ⌈q⌉ := by
  unfold ratCeil
  rw [ratFloor_eq, Int.floor_neg, neg_neg]

theorem floor_div_int (a : ℚ) (n : ℤ) (hn : 0 < n) : ⌊a / (n : ℚ)⌋ = ⌊a⌋ / n := by
  have hnQ : (0 : ℚ) < (n : ℚ) := by exact_mod_cast hn
  have hmodQ : ((n : ℤ) : ℚ) * ((⌊a⌋ / n : ℤ) : ℚ) + ((⌊a⌋ % n : ℤ) : ℚ) = ((⌊a⌋ : ℤ) : ℚ) := by
    exact_mod_cast congrArg (fun z : ℤ => (z : ℚ)) (Int.ediv_add_emod ⌊a⌋ n)
  have hnnQ : (0 : ℚ) ≤ ((⌊a⌋ % n : ℤ) : ℚ) := by
    exact_mod_cast Int.emod_nonneg ⌊a⌋ (ne_of_gt hn)
  have hltQ : ((⌊a⌋ % n : ℤ) : ℚ) < (n : ℚ) := by
    exact_mod_cast Int.emod_lt_of_pos ⌊a⌋ hn
  have hleQ : ((⌊a⌋ % n : ℤ) : ℚ) + 1 ≤ (n : ℚ) := by
    exact_mod_cast Int.add_one_le_of_lt (Int.emod_lt_of_pos ⌊a⌋ hn)
  have hfl : ((⌊a⌋ : ℤ) : ℚ) ≤ a := Int.floor_le a
  have hfu : a < ((⌊a⌋ : ℤ) : ℚ) + 1 := Int.lt_floor_add_one a
  rw [Int.floor_eq_iff]
  constructor
  · rw [le_div_iff₀ hnQ]
    linarith
  · rw [div_lt_iff₀ hnQ,
      show ((⌊a⌋ / n : ℤ) : ℚ) + 1 = (((⌊a⌋ / n : ℤ) + 1 : ℤ) : ℚ) by push_cast; ring,
      show ((((⌊a⌋ / n : ℤ) + 1 : ℤ)) : ℚ) * (n : ℚ) = (n : ℚ) * ((⌊a⌋ / n : ℤ) : ℚ) + (n : ℚ) by push_cast; ring]
    linarith

theorem floor_pyMod (s : ℚ) (n : ℤ) (hn : 0 < n) : ⌊pyMod s ((n : ℤ) : ℚ)⌋ = ⌊s⌋ % n := by
  unfold pyMod
  rw [ratFloor_eq, floor_div_int s n hn,
    show ((n : ℤ) : ℚ) * ((⌊s⌋ / n : ℤ) : ℚ) = (((n * (⌊s⌋ / n)) : ℤ) : ℚ) by push_cast; ring,
    Int.floor_sub_int, Int.emod_def]

theorem pyMod_nonneg (s : ℚ) (n : ℤ) (hn : 0 < n) : 0 ≤ pyMod s ((n : ℤ) : ℚ) := by
  unfold pyMod
  rw [ratFloor_eq]
  have hnQ : (0 : ℚ) < (n : ℚ) := by exact_mod_cast hn
  have h1 : ((⌊s / ((n : ℤ) : ℚ)⌋ : ℤ) : ℚ) ≤ s / ((n : ℤ) : ℚ) := Int.floor_le _
  rw [le_div_iff₀ hnQ] at h1
  linarith

theorem pyInt_intCast (z : ℤ) : pyInt ((z : ℤ) : ℚ) = z := by
  unfold pyInt
  split_ifs
  · rw [ratFloor_eq, Int.floor_intCast]
  · rw [ratCeil_eq, Int.ceil_intCast]

theorem pyInt_of_nonneg (q : ℚ) (h : 0 ≤ q) : pyInt q = ⌊q⌋ := by
  unfold pyInt
  rw [if_pos h, ratFloor_eq]

/-- The three fields of `format_timestamp` computed on the integer floor
of the input: hours are the unbounded floor-quotient by 3600, minutes and
seconds the (always non-negative) Python remainders. -/
theorem format_timestamp_eq (s : ℚ) :
    format_timestamp s =
      pad2 (⌊s⌋ / 3600) ++ ":" ++ pad2 (⌊s⌋ % 3600 / 60) ++ ":" ++ pad2 (⌊s⌋ % 60) := by
  have e36 : (3600 : ℚ) = ((3600 : ℤ) : ℚ) := by norm_num
  have e60 : (60 : ℚ) = ((60 : ℤ) : ℚ) := by norm_num
  have hh : pyInt (pyFloorDiv s 3600) = ⌊s⌋ / 3600 := by
    unfold pyFloorDiv
    rw [ratFloor_eq, pyInt_intCast, e36, floor_div_int s 3600 (by norm_num)]
  have hm : pyInt (pyFloorDiv (pyMod s 3600) 60) = ⌊s⌋ % 3600 / 60 := by
    unfold pyFloorDiv
    rw [ratFloor_eq, pyInt_intCast, e60, floor_div_int _ 60 (by norm_num),
      show pyMod s 3600 = pyMod s ((3600 : ℤ) : ℚ) by rw [e36],
      floor_pyMod s 3600 (by norm_num)]
  have hs2 : pyInt (pyMod s 60) = ⌊s⌋ % 60 := by
    rw [show pyMod s 60 = pyMod s ((60 : ℤ) : ℚ) by rw [e60]]
    rw [pyInt_of_nonneg _ (pyMod_nonneg s 60 (by norm_num)),
      floor_pyMod s 60 (by norm_num)]
  simp only [format_timestamp]
  rw [hh, hm, hs2]

theorem str_data_append (a b : String) : (a ++ b).data = a.data ++ b.data :=
  rfl

theorem isPreL_self_append (l r : List Char) : isPreL l (l ++ r) = true := by
  induction l with
  | nil => rfl
  | cons a as ih => simp [isPreL, ih]

theorem isSubL_nil (l : List Char) : isSubL [] l = true := by
  induction l with
  | nil => rfl
  | cons c t ih => simp [isSubL, isPreL]

theorem isSubL_append (m a b : List Char) : isSubL m (a ++ (m ++ b)) = true := by
  induction a with
  | nil =>
    cases m with
    | nil => exact isSubL_nil b
    | cons c t =>
      simp only [List.nil_append, isSubL, Bool.or_eq_true]
      exact Or.inl (isPreL_self_append (c :: t) b)
  | cons c t ih => simp [isSubL, ih]

theorem str_append_assoc (a b c : String) : (a ++ b) ++ c = a ++ (b ++ c) := by
  cases a with
  | mk la =>
    cases b with
    | mk lb =>
      cases c with
      | mk lc => exact congrArg String.mk (List.append_assoc la lb lc)

theorem pyIn_mid (needle pre suf : String) :
    pyIn needle (pre ++ needle ++ suf) = true := by
  unfold pyIn
  rw [str_data_append, str_data_append, List.append_assoc]
  exact isSubL_append _ _ _

/-- Claim C2: when no URL pattern matches, `extract_video_id` returns
nothing, the resolved video reference is the original input string
verbatim, and the pipeline behaviour depends on the fetch oracle only
through its value at that original string, i.e. the fetch is invoked
with the input unchanged. -/
theorem C2_fallback_identifier (url : String) (h : extract_video_id url = none) :
    resolveVideoId url = url
    ∧ ∀ (f1 f2 : String → String → Except String (List CaptionEntry))
        (g : String → Except String String) (language : String),
        f1 url language = f2 url language →
        get_transcript f1 g url language = get_transcript f2 g url language := by
  have hr : resolveVideoId url = url := by
    unfold resolveVideoId pyOrStr
    rw [h]
  refine ⟨hr, ?_⟩
  intro f1 f2 g language hff
  simp only [get_transcript, hr, hff]

theorem C2_witness :
    extract_video_id "dQw4w9WgXcQ" = none
    ∧ resolveVideoId "dQw4w9WgXcQ" = "dQw4w9WgXcQ" :=
  ⟨by decide, (C2_fallback_identifier "dQw4w9WgXcQ" (by decide)).1⟩

/-- Claim C3: for non-negative seconds the result is the fixed
`HH:MM:SS` rendering with each field zero-padded to two digits: hours
are the unbounded floor-quotient by 3600 (not wrapped at 24), minutes
and seconds come from the remainders of the truncated value, so
truncation (not rounding) happens at the seconds level; including the
three examples from the spec and an over-24-hours one. -/
theorem C3_format_timestamp (s : ℚ) (hs : 0 ≤ s) :
    (format_timestamp s =
      pad2 (⌊s⌋ / 3600) ++ ":" ++ pad2 (⌊s⌋ % 3600 / 60) ++ ":" ++ pad2 (⌊s⌋ % 60))
    ∧ format_timestamp 0 = "00:00:00"
    ∧ format_timestamp 3661 = "01:01:01"
    ∧ format_timestamp (599/10 : ℚ) = "00:00:59"
    ∧ format_timestamp 90000 = "25:00:00" := by
  refine ⟨format_timestamp_eq s, ?_, ?_, ?_, ?_⟩
  · rw [format_timestamp_eq, Int.floor_zero]
    decide
  · rw [format_timestamp_eq, show ⌊(3661 : ℚ)⌋ = 3661 by rw [Int.floor_eq_iff]; norm_num]
    decide
  · rw [format_timestamp_eq, show ⌊(599/10 : ℚ)⌋ = 59 by rw [Int.floor_eq_iff]; norm_num]
    decide
  · rw [format_timestamp_eq, show ⌊(90000 : ℚ)⌋ = 90000 by rw [Int.floor_eq_iff]; norm_num]
    decide

theorem C3_witness :
    (0 : ℚ) ≤ 3661
    ∧ format_timestamp (3661 : ℚ) =
        pad2 (⌊(3661 : ℚ)⌋ / 3600) ++ ":" ++ pad2 (⌊(3661 : ℚ)⌋ % 3600 / 60) ++ ":"
          ++ pad2 (⌊(3661 : ℚ)⌋ % 60) :=
  ⟨by norm_num, (C3_format_timestamp 3661 (by norm_num)).1⟩

/-- Claim C4: when the transcript fetch fails with a transcripts-disabled
condition (a raised exception whose stringified message contains the
token `TranscriptsDisabled`), the pipeline surfaces exactly
"Transcripts are disabled for this video." and renders no article,
table or download. -/
theorem C4_disabled_surfaced (numRepr : ℚ → String)
    (fetch : String → String → Except String (List CaptionEntry))
    (generate : String → Except String String)
    (url language msg : String)
    (hf : fetch (resolveVideoId url) language = Except.error msg)
    (hd : pyIn "TranscriptsDisabled" msg = true) :
    mainPipeline numRepr fetch generate url language =
      Except.error "Transcripts are disabled for this video."
    ∧ ∀ out : RenderOutput,
        mainPipeline numRepr fetch generate url language ≠ Except.ok out := by
  have h2 : handleErrorMsg language msg = "Transcripts are disabled for this video." := by
    unfold handleErrorMsg
    rw [hd]
    rfl
  have h1 : get_transcript fetch generate url language =
      Except.error "Transcripts are disabled for this video." := by
    simp only [get_transcript, hf, h2]
  have h3 : mainPipeline numRepr fetch generate url language =
      Except.error "Transcripts are disabled for this video." := by
    unfold mainPipeline
    rw [h1]
  refine ⟨h3, ?_⟩
  intro out hcontra
  rw [h3] at hcontra
  exact Except.noConfusion hcontra

theorem C4_witness :
    pyIn "TranscriptsDisabled" "TranscriptsDisabled: captions off" = true
    ∧ mainPipeline (fun _ => "0") (fun _ _ => Except.error "TranscriptsDisabled: captions off")
        (fun _ => Except.ok "article") "u" "en" =
        Except.error "Transcripts are disabled for this video." :=
  ⟨by decide,
    (C4_disabled_surfaced (fun _ => "0") (fun _ _ => Except.error "TranscriptsDisabled: captions off")
      (fun _ => Except.ok "article") "u" "en" "TranscriptsDisabled: captions off"
      rfl (by decide)).1⟩

/-- Claim C5: when the transcript fetch fails with a
no-transcript-found condition (message containing `NoTranscriptFound`
and, being a distinct condition, not `TranscriptsDisabled`), the
surfaced message contains the literal requested language code. -/
theorem C5_language_in_message
    (fetch : String → String → Except String (List CaptionEntry))
    (generate : String → Except String String)
    (url language msg : String)
    (hf : fetch (resolveVideoId url) language = Except.error msg)
    (hnf : pyIn "NoTranscriptFound" msg = true)
    (hnd : pyIn "TranscriptsDisabled" msg = false) :
    get_transcript fetch generate url language =
      Except.error ("No transcript found in language " ++ squo ++ language ++ squo ++ ".")
    ∧ pyIn language
        ("No transcript found in language " ++ squo ++ language ++ squo ++ ".") = true := by
  have h2 : handleErrorMsg language msg =
      "No transcript found in language " ++ squo ++ language ++ squo ++ "." := by
    unfold handleErrorMsg
    rw [hnd, hnf]
    rfl
  constructor
  · simp only [get_transcript, hf, h2]
  · rw [str_append_assoc ("No transcript found in language " ++ squo ++ language) squo "."]
    exact pyIn_mid language ("No transcript found in language " ++ squo) (squo ++ ".")

theorem C5_witness :
    pyIn "NoTranscriptFound" "NoTranscriptFound: no track" = true
    ∧ pyIn "TranscriptsDisabled" "NoTranscriptFound: no track" = false
    ∧ pyIn "en"
        ("No transcript found in language " ++ squo ++ "en" ++ squo ++ ".") = true :=
  ⟨by decide, by decide,
    (C5_language_in_message (fun _ _ => Except.error "NoTranscriptFound: no track")
      (fun _ => Except.ok "article") "u" "en" "NoTranscriptFound: no track"
      rfl (by decide) (by decide)).2⟩

/-- Claim C6, counterexample: an exception raised by the completion
client whose message happens to contain `TranscriptsDisabled` is NOT
surfaced as a generic fetch error with the raw message appended — the
substring classification routes it to the transcripts-disabled message,
even though the transcript fetch itself succeeded. -/
theorem C6_counterexample :
    get_transcript (fun _ _ => Except.ok ([] : List CaptionEntry))
        (fun _ => Except.error "TranscriptsDisabled raised by completion client")
        "vid" "en" =
      Except.error "Transcripts are disabled for this video."
    ∧ ("Transcripts are disabled for this video." : String) ≠
        "Error fetching transcript: " ++ "TranscriptsDisabled raised by completion client" := by
  constructor
  · rfl
  · decide

/-- Claim C6 as amended: every failure of the fetch step or of the
completion step whose stringified message contains neither
`TranscriptsDisabled` nor `NoTranscriptFound` — network errors, invalid
identifiers, quota failures, completion-client exceptions — is surfaced
as the generic fetch error with the raw underlying message appended. -/
theorem C6_generic_error
    (fetch : String → String → Except String (List CaptionEntry))
    (generate : String → Except String String)
    (url language msg : String)
    (hnd : pyIn "TranscriptsDisabled" msg = false)
    (hnf : pyIn "NoTranscriptFound" msg = false) :
    (fetch (resolveVideoId url) language = Except.error msg →
      get_transcript fetch generate url language =
        Except.error ("Error fetching transcript: " ++ msg))
    ∧ ∀ entries : List CaptionEntry,
        fetch (resolveVideoId url) language = Except.ok entries →
        generate (formatTranscript entries) = Except.error msg →
        get_transcript fetch generate url language =
          Except.error ("Error fetching transcript: " ++ msg) := by
  have h2 : handleErrorMsg language msg = "Error fetching transcript: " ++ msg := by
    unfold handleErrorMsg
    rw [hnd, hnf]
    rfl
  constructor
  · intro hf
    simp only [get_transcript, hf, h2]
  · intro entries hf hg
    simp only [get_transcript, hf, hg, h2]

theorem C6_witness :
    pyIn "TranscriptsDisabled" "HTTPError 429 quota exceeded" = false
    ∧ pyIn "NoTranscriptFound" "HTTPError 429 quota exceeded" = false
    ∧ get_transcript (fun _ _ => Except.error "HTTPError 429 quota exceeded")
        (fun _ => Except.ok "article") "u" "en" =
        Except.error ("Error fetching transcript: " ++ "HTTPError 429 quota exceeded") :=
  ⟨by decide, by decide,
    (C6_generic_error (fun _ _ => Except.error "HTTPError 429 quota exceeded")
      (fun _ => Except.ok "article") "u" "en" "HTTPError 429 quota exceeded"
      (by decide) (by decide)).1 rfl⟩

/-- Claim C7, counterexample: a successful fetch of zero caption
entries followed by a successful completion does NOT render a
zero-object download and a zero-row table: the dataframe built from
the empty list has no `start` column, the resulting error (the column
name in single quotes) is surfaced, and no render output exists. -/
theorem C7_counterexample :
    mainPipeline (fun _ => "0.0") (fun _ _ => Except.ok ([] : List CaptionEntry))
        (fun _ => Except.ok "article") "u" "en" =
      Except.error (squo ++ "start" ++ squo)
    ∧ ∀ out : RenderOutput,
        mainPipeline (fun _ => "0.0") (fun _ _ => Except.ok ([] : List CaptionEntry))
          (fun _ => Except.ok "article") "u" "en" ≠ Except.ok out := by
  have h1 : mainPipeline (fun _ => "0.0") (fun _ _ => Except.ok ([] : List CaptionEntry))
      (fun _ => Except.ok "article") "u" "en" = Except.error (squo ++ "start" ++ squo) := rfl
  refine ⟨h1, fun out h => ?_⟩
  rw [h1] at h
  exact Except.noConfusion h

/-- Claim C7 as amended: on a successful fetch of N ≥ 1 caption
entries followed by a successful completion, the rendered output
exists and its JSON download is the 2-space pretty-printed array of
exactly the N `text`/`start`/`duration` objects in fetch order, while
the table holds exactly N rows `(timestamp, text, duration)` in the
same order; a fetch of zero entries instead fails at the dataframe
column selection (see the counterexample). -/
theorem C7_success_render (numRepr : ℚ → String)
    (fetch : String → String → Except String (List CaptionEntry))
    (generate : String → Except String String)
    (url language : String) (entries : List CaptionEntry) (article : String)
    (hne : entries ≠ [])
    (hf : fetch (resolveVideoId url) language = Except.ok entries)
    (hg : generate (formatTranscript entries) = Except.ok article) :
    ∃ out : RenderOutput,
      mainPipeline numRepr fetch generate url language = Except.ok out
      ∧ out.jsonDownload = jsonDumps numRepr entries
      ∧ out.jsonDownload =
          "[\n" ++ String.intercalate ",\n" (entries.map (entryJson numRepr)) ++ "\n]"
      ∧ (entries.map (entryJson numRepr)).length = entries.length
      ∧ out.tableRows = entries.map (fun e => (format_timestamp e.start, e.text, e.duration))
      ∧ out.tableRows.length = entries.length := by
  cases entries with
  | nil => exact absurd rfl hne
  | cons a t =>
    have h1 : get_transcript fetch generate url language = Except.ok (a :: t, article) := by
      simp only [get_transcript, hf, hg]
    have hmain : mainPipeline numRepr fetch generate url language =
        Except.ok ⟨article, article, jsonDumps numRepr (a :: t),
          (a :: t).map (fun e => (format_timestamp e.start, e.text, e.duration))⟩ := by
      simp only [mainPipeline, h1]
    refine ⟨_, hmain, ?_, ?_, ?_, ?_, ?_⟩
    · rfl
    · rfl
    · exact List.length_map _ _
    · rfl
    · exact List.length_map _ _

set_option maxHeartbeats 1600000 in
theorem C7_witness :
    ([CaptionEntry.mk "hello" 0 1] : List CaptionEntry) ≠ []
    ∧ ∃ out : RenderOutput,
        mainPipeline (fun _ => "0.0")
            (fun _ _ => Except.ok [CaptionEntry.mk "hello" 0 1])
            (fun _ => Except.ok "article") "u" "en" = Except.ok out
        ∧ out.jsonDownload = jsonDumps (fun _ => "0.0") [CaptionEntry.mk "hello" 0 1]
        ∧ out.jsonDownload = "[\n" ++ String.intercalate ",\n"
              ([CaptionEntry.mk "hello" 0 1].map (entryJson (fun _ => "0.0"))) ++ "\n]"
        ∧ ([CaptionEntry.mk "hello" 0 1].map (entryJson (fun _ => "0.0"))).length =
            [CaptionEntry.mk "hello" 0 1].length
        ∧ out.tableRows = [CaptionEntry.mk "hello" 0 1].map
            (fun e => (format_timestamp e.start, e.text, e.duration))
        ∧ out.tableRows.length = [CaptionEntry.mk "hello" 0 1].length :=
  ⟨List.cons_ne_nil _ _,
    C7_success_render (fun _ => "0.0") (fun _ _ => Except.ok [CaptionEntry.mk "hello" 0 1])
      (fun _ => Except.ok "article") "u" "en" [CaptionEntry.mk "hello" 0 1] "article"
      (List.cons_ne_nil _ _) rfl rfl⟩

/-- Claim C8: the formatted transcript text is a pure function of the
entry sequence — two runs whose fetch oracles return the same entries
for the same resolved reference and language produce the identical
joined `[HH:MM:SS] text` block, and the whole pipeline result agrees
when the generation oracle is shared. -/
theorem C8_deterministic
    (f1 f2 : String → String → Except String (List CaptionEntry))
    (g : String → Except String String)
    (url language : String) (entries : List CaptionEntry)
    (h1 : f1 (resolveVideoId url) language = Except.ok entries)
    (h2 : f2 (resolveVideoId url) language = Except.ok entries) :
    formatTranscript entries =
      String.intercalate "\n" (entries.map
        (fun entry => "[" ++ format_timestamp entry.start ++ "] " ++ entry.text))
    ∧ get_transcript f1 g url language = get_transcript f2 g url language := by
  constructor
  · rfl
  · simp only [get_transcript, h1, h2]

theorem C8_witness :
    formatTranscript [CaptionEntry.mk "hi" 3661 2] =
      String.intercalate "\n" ([CaptionEntry.mk "hi" 3661 2].map
        (fun entry => "[" ++ format_timestamp entry.start ++ "] " ++ entry.text)) :=
  (C8_deterministic (fun _ _ => Except.ok [CaptionEntry.mk "hi" 3661 2])
    (fun _ _ => Except.ok [CaptionEntry.mk "hi" 3661 2]) (fun _ => Except.ok "a")
    "u" "en" [CaptionEntry.mk "hi" 3661 2] rfl rfl).1

/-- Claim C9: classification of a failure depends only on substring
membership in the stringified message, not on where it was raised: a
message containing `TranscriptsDisabled` gives the disabled message,
otherwise one containing `NoTranscriptFound` gives the not-found
message with the requested language code, all others the generic
prefix; and both the fetch step and the generation step route their
error through this same classification. -/
theorem C9_substring_classification
    (fetch : String → String → Except String (List CaptionEntry))
    (generate : String → Except String String)
    (url language msg : String) (entries : List CaptionEntry) :
    (pyIn "TranscriptsDisabled" msg = true →
      handleErrorMsg language msg = "Transcripts are disabled for this video.")
    ∧ (pyIn "TranscriptsDisabled" msg = false → pyIn "NoTranscriptFound" msg = true →
      handleErrorMsg language msg =
        "No transcript found in language " ++ squo ++ language ++ squo ++ ".")
    ∧ (pyIn "TranscriptsDisabled" msg = false → pyIn "NoTranscriptFound" msg = false →
      handleErrorMsg language msg = "Error fetching transcript: " ++ msg)
    ∧ (fetch (resolveVideoId url) language = Except.error msg →
      get_transcript fetch generate url language =
        Except.error (handleErrorMsg language msg))
    ∧ (fetch (resolveVideoId url) language = Except.ok entries →
      generate (formatTranscript entries) = Except.error msg →
      get_transcript fetch generate url language =
        Except.error (handleErrorMsg language msg)) := by
  refine ⟨?_, ?_, ?_, ?_, ?_⟩
  · intro hd
    unfold handleErrorMsg
    rw [hd]
    rfl
  · intro hnd hnf
    unfold handleErrorMsg
    rw [hnd, hnf]
    rfl
  · intro hnd hnf
    unfold handleErrorMsg
    rw [hnd, hnf]
    rfl
  · intro hf
    simp only [get_transcript, hf]
  · intro hf hg
    simp only [get_transcript, hf, hg]

theorem C9_witness :
    pyIn "TranscriptsDisabled" "llm says TranscriptsDisabled somewhere" = true
    ∧ handleErrorMsg "en" "llm says TranscriptsDisabled somewhere" =
        "Transcripts are disabled for this video." :=
  ⟨by decide,
    (C9_substring_classification (fun _ _ => Except.ok []) (fun _ => Except.ok "a")
      "u" "en" "llm says TranscriptsDisabled somewhere" []).1 (by decide)⟩

/-- Claim C10: for negative seconds `format_timestamp` neither fails
nor clamps: the fields follow Python floor-division and modulo
semantics, the hours field is the (negative) floor-quotient while the
minutes and seconds fields come from the non-negative remainders; in
particular `format_timestamp (-1) = "-1:59:59"`. -/
theorem C10_negative_seconds (s : ℚ) (hs : s < 0) :
    (format_timestamp s =
      pad2 (⌊s⌋ / 3600) ++ ":" ++ pad2 (⌊s⌋ % 3600 / 60) ++ ":" ++ pad2 (⌊s⌋ % 60)
      ∧ 0 ≤ ⌊s⌋ % 3600 / 60 ∧ 0 ≤ ⌊s⌋ % 60)
    ∧ format_timestamp (-1) = "-1:59:59"
    ∧ format_timestamp (-3661) = "-2:58:59" := by
  refine ⟨⟨format_timestamp_eq s, ?_, ?_⟩, ?_, ?_⟩
  · exact Int.ediv_nonneg (Int.emod_nonneg _ (by norm_num)) (by norm_num)
  · exact Int.emod_nonneg _ (by norm_num)
  · rw [format_timestamp_eq, show ⌊(-1 : ℚ)⌋ = -1 by rw [Int.floor_eq_iff]; norm_num]
    decide
  · rw [format_timestamp_eq, show ⌊(-3661 : ℚ)⌋ = -3661 by rw [Int.floor_eq_iff]; norm_num]
    decide

theorem C10_witness :
    (-1 : ℚ) < 0
    ∧ format_timestamp (-1 : ℚ) =
        pad2 (⌊(-1 : ℚ)⌋ / 3600) ++ ":" ++ pad2 (⌊(-1 : ℚ)⌋ % 3600 / 60) ++ ":"
          ++ pad2 (⌊(-1 : ℚ)⌋ % 60) :=
  ⟨by norm_num, ((C10_negative_seconds (-1) (by norm_num)).1).1⟩

theorem strip_cons_eq {a : Char} {as cs : List Char} :
    stripPrefixL (a :: as) (a :: cs) = stripPrefixL as cs := by
  simp [stripPrefixL]

theorem strip_cons_ne {a c : Char} {as cs : List Char} (h : ¬ a = c) :
    stripPrefixL (a :: as) (c :: cs) = none := by
  simp [stripPrefixL, h]

theorem stripPrefixL_append (p r : List Char) : stripPrefixL p (p ++ r) = some r := by
  induction p with
  | nil => rfl
  | cons a as ih => simpa [stripPrefixL] using ih

theorem stripPrefixL_none_of_mem {x : Char} {p s : List Char} (hx : x ∈ p)
    (hs : ∀ c ∈ s, c ≠ x) : stripPrefixL p s = none := by
  induction p generalizing s with
  | nil => cases hx
  | cons a as ih =>
    cases s with
    | nil => rfl
    | cons c cs =>
      by_cases hac : a = c
      · subst hac
        rcases List.mem_cons.mp hx with h1 | h2
        · exact absurd h1.symm (hs a (List.mem_cons_self a cs))
        · rw [strip_cons_eq]
          exact ih h2 (fun d hd => hs d (List.mem_cons_of_mem _ hd))
      · exact strip_cons_ne hac

theorem stripPrefixL_mem {p s r : List Char} (h : stripPrefixL p s = some r) :
    ∀ c ∈ r, c ∈ s := by
  induction p generalizing s with
  | nil =>
    simp only [stripPrefixL, Option.some.injEq] at h
    subst h
    exact fun c hc => hc
  | cons a as ih =>
    cases s with
    | nil => exact absurd h (by simp [stripPrefixL])
    | cons b bs =>
      by_cases hab : a = b
      · subst hab
        rw [strip_cons_eq] at h
        exact fun c hc => List.mem_cons_of_mem _ (ih h c hc)
      · rw [strip_cons_ne hab] at h
        cases h

theorem takeWhile_append_all {p : Char → Bool} (id rest : List Char)
    (h1 : ∀ c ∈ id, p c = true)
    (h2 : ∀ c, rest.head? = some c → p c = false) :
    (id ++ rest).takeWhile p = id := by
  induction id with
  | nil =>
    cases rest with
    | nil => rfl
    | cons c cs => simp [List.takeWhile, h2 c rfl]
  | cons a as ih =>
    have ha := h1 a (List.mem_cons_self a as)
    simp only [List.cons_append, List.takeWhile, ha, List.append_eq]
    rw [ih (fun c hc => h1 c (List.mem_cons_of_mem _ hc))]

theorem captureIdent_append (id rest : List Char) (hne : id ≠ [])
    (h1 : ∀ c ∈ id, isWordDash c = true)
    (h2 : ∀ c, rest.head? = some c → isWordDash c = false) :
    captureIdent (id ++ rest) = some id := by
  unfold captureIdent
  rw [show (id ++ rest).takeWhile (fun c => isWordDash c) = id from
    takeWhile_append_all id rest h1 h2]
  cases id with
  | nil => exact absurd rfl hne
  | cons a t => rfl

theorem reSearch_cons_none {p : List Char → Option (List Char)} {c : Char} {t : List Char}
    (h : p (c :: t) = none) : reSearch p (c :: t) = reSearch p t := by
  simp [reSearch, h]

theorem reSearch_cons_some {p : List Char → Option (List Char)} {c : Char} {t : List Char}
    {g : List Char} (h : p (c :: t) = some g) : reSearch p (c :: t) = some g := by
  simp [reSearch, h]

theorem reSearch_step_none {p : List Char → Option (List Char)} {l : List Char}
    (c : Char) (t : List Char) (hl : l = c :: t) (h : p l = none) :
    reSearch p l = reSearch p t := by
  subst hl
  exact reSearch_cons_none h

theorem reSearch_step_some {p : List Char → Option (List Char)} {l : List Char} {g : List Char}
    (c : Char) (t : List Char) (hl : l = c :: t) (h : p l = some g) :
    reSearch p l = some g := by
  subst hl
  exact reSearch_cons_some h

theorem reSearch_skip_no_y {p : List Char → Option (List Char)}
    (hp : ∀ (c : Char) (t : List Char), ¬ c = 'y' → p (c :: t) = none)
    (pre t : List Char) (hpre : ∀ c ∈ pre, ¬ c = 'y') :
    reSearch p (pre ++ t) = reSearch p t := by
  induction pre with
  | nil => rfl
  | cons c cs ih =>
    rw [List.cons_append, reSearch_cons_none (hp c _ (hpre c (List.mem_cons_self c cs)))]
    exact ih (fun d hd => hpre d (List.mem_cons_of_mem _ hd))

theorem reSearch_none_of_all {p : List Char → Option (List Char)} {P : Char → Prop}
    (hp : ∀ l, (∀ c ∈ l, P c) → p l = none) :
    ∀ l, (∀ c ∈ l, P c) → reSearch p l = none := by
  intro l
  induction l with
  | nil =>
    intro h
    show p [] = none
    exact hp [] h
  | cons c t ih =>
    intro h
    rw [reSearch_cons_none (hp _ h)]
    exact ih (fun d hd => h d (List.mem_cons_of_mem _ hd))

theorem restOkB_head {rest : List Char} (h : restOkB rest = true) :
    ∀ c, rest.head? = some c → isWordDash c = false := by
  intro c hc
  cases rest with
  | nil => cases hc
  | cons d t =>
    injection hc with hc
    subst hc
    unfold restOkB at h
    rw [Bool.and_eq_true] at h
    have h2 : (!(isWordDash d)) = true := h.2
    cases hb : isWordDash d with
    | false => rfl
    | true =>
      rw [hb] at h2
      exact absurd h2 (by decide)

theorem restOkB_noDotSlash {rest : List Char} (h : restOkB rest = true) :
    ∀ c ∈ rest, c ≠ '.' ∧ c ≠ '/' := by
  intro c hc
  unfold restOkB at h
  rw [Bool.and_eq_true] at h
  have hall := List.all_eq_true.mp h.1 c hc
  constructor
  · intro he
    subst he
    exact absurd hall (by decide)
  · intro he
    subst he
    exact absurd hall (by decide)

theorem wordDash_not_special (c : Char) (h : isWordDash c = true) :
    c ≠ '.' ∧ c ≠ '/' := by
  constructor
  · intro he
    subst he
    exact absurd h (by decide)
  · intro he
    subst he
    exact absurd h (by decide)

theorem wv_cons : "youtube.com/watch?v=".data = 'y' :: "outube.com/watch?v=".data :=
  rfl

theorem yt5_cons : "youtu".data = 'y' :: "outu".data :=
  rfl

theorem p2_cons : "youtube.com/embed/".data = 'y' :: "outube.com/embed/".data :=
  rfl

theorem p3_cons : "youtube.com/v/".data = 'y' :: "outube.com/v/".data :=
  rfl

theorem matchWatchAt_none {l : List Char}
    (h : stripPrefixL "youtube.com/watch?v=".data l = none) : matchWatchAt l = none := by
  unfold matchWatchAt
  rw [h]

theorem matchWatchAt_some {l r : List Char}
    (h : stripPrefixL "youtube.com/watch?v=".data l = some r) :
    matchWatchAt l = captureIdent r := by
  unfold matchWatchAt
  rw [h]

theorem matchShortAt_stripNone {l : List Char}
    (h : stripPrefixL "youtu".data l = none) : matchShortAt l = none := by
  unfold matchShortAt
  rw [h]

theorem matchShortAt_stripNil {l : List Char}
    (h : stripPrefixL "youtu".data l = some []) : matchShortAt l = none := by
  unfold matchShortAt
  rw [h]

theorem matchShortAt_stripCons {l : List Char} {d : Char} {r2 : List Char}
    (h : stripPrefixL "youtu".data l = some (d :: r2)) :
    matchShortAt l = if d = '\n' then none else beTail r2 := by
  unfold matchShortAt
  rw [h]

theorem beTail_none {r2 : List Char} (h : stripPrefixL "be/".data r2 = none) :
    beTail r2 = none := by
  unfold beTail
  rw [h]

theorem beTail_append (X : List Char) : beTail ("be/".data ++ X) = captureIdent X := by
  unfold beTail
  rw [stripPrefixL_append]

theorem pat1At_split {l : List Char} (h : matchWatchAt l = none) :
    pat1At l = matchShortAt l := by
  unfold pat1At
  rw [h]

theorem pat1At_watchSome {l g : List Char} (h : matchWatchAt l = some g) :
    pat1At l = some g := by
  unfold pat1At
  rw [h]

theorem pat2At_eq_none {l : List Char}
    (h : stripPrefixL "youtube.com/embed/".data l = none) : pat2At l = none := by
  unfold pat2At
  rw [h]

theorem pat2At_eq_some {l r : List Char}
    (h : stripPrefixL "youtube.com/embed/".data l = some r) :
    pat2At l = captureIdent r := by
  unfold pat2At
  rw [h]

theorem pat3At_eq_some {l r : List Char}
    (h : stripPrefixL "youtube.com/v/".data l = some r) :
    pat3At l = captureIdent r := by
  unfold pat3At
  rw [h]

theorem pat1At_head_ne {c : Char} {t : List Char} (h : ¬ c = 'y') :
    pat1At (c :: t) = none := by
  have h1 : stripPrefixL "youtube.com/watch?v=".data (c :: t) = none := by
    rw [wv_cons]
    exact strip_cons_ne (fun he => h he.symm)
  have h2 : stripPrefixL "youtu".data (c :: t) = none := by
    rw [yt5_cons]
    exact strip_cons_ne (fun he => h he.symm)
  unfold pat1At matchWatchAt matchShortAt
  rw [h1, h2]

theorem pat2At_head_ne {c : Char} {t : List Char} (h : ¬ c = 'y') :
    pat2At (c :: t) = none := by
  have h1 : stripPrefixL "youtube.com/embed/".data (c :: t) = none := by
    rw [p2_cons]
    exact strip_cons_ne (fun he => h he.symm)
  unfold pat2At
  rw [h1]

theorem pat3At_head_ne {c : Char} {t : List Char} (h : ¬ c = 'y') :
    pat3At (c :: t) = none := by
  have h1 : stripPrefixL "youtube.com/v/".data (c :: t) = none := by
    rw [p3_cons]
    exact strip_cons_ne (fun he => h he.symm)
  unfold pat3At
  rw [h1]

theorem pat1At_none_noDotSlash {l : List Char} (hl : ∀ c ∈ l, c ≠ '.' ∧ c ≠ '/') :
    pat1At l = none := by
  have hw : matchWatchAt l = none :=
    matchWatchAt_none (stripPrefixL_none_of_mem
      (by decide : ('.' : Char) ∈ "youtube.com/watch?v=".data)
      (fun c hc => (hl c hc).1))
  rw [pat1At_split hw]
  cases h5 : stripPrefixL "youtu".data l with
  | none => exact matchShortAt_stripNone h5
  | some r =>
    cases r with
    | nil => exact matchShortAt_stripNil h5
    | cons d r2 =>
      have h6 : stripPrefixL "be/".data r2 = none :=
        stripPrefixL_none_of_mem (by decide : ('/' : Char) ∈ "be/".data)
          (fun c hc => (hl c (stripPrefixL_mem h5 c (List.mem_cons_of_mem d hc))).2)
      rw [matchShortAt_stripCons h5, beTail_none h6]
      exact ite_self none

theorem pat2At_none_noDotSlash {l : List Char} (hl : ∀ c ∈ l, c ≠ '.' ∧ c ≠ '/') :
    pat2At l = none := by
  have hw : stripPrefixL "youtube.com/embed/".data l = none :=
    stripPrefixL_none_of_mem (by decide : ('.' : Char) ∈ "youtube.com/embed/".data)
      (fun c hc => (hl c hc).1)
  unfold pat2At
  rw [hw]

theorem pat1At_watchPos (X g : List Char) (hcap : captureIdent X = some g) :
    pat1At ("youtube.com/watch?v=".data ++ X) = some g := by
  have h := matchWatchAt_some (stripPrefixL_append "youtube.com/watch?v=".data X)
  rw [hcap] at h
  exact pat1At_watchSome h

theorem wv_strip_short (X : List Char) :
    stripPrefixL "youtube.com/watch?v=".data ("youtu.be/".data ++ X) = none := by
  show stripPrefixL
      ('y' :: 'o' :: 'u' :: 't' :: 'u' :: 'b' :: 'e' :: '.' :: 'c' :: 'o' :: 'm' :: '/' :: 'w' :: 'a' :: 't' :: 'c' :: 'h' :: '?' :: 'v' :: '=' :: ([] : List Char))
      ('y' :: 'o' :: 'u' :: 't' :: 'u' :: '.' :: 'b' :: 'e' :: '/' ::X) = none
  rw [strip_cons_eq, strip_cons_eq, strip_cons_eq, strip_cons_eq, strip_cons_eq]
  exact strip_cons_ne (by decide)

theorem pat1At_shortPos (X g : List Char) (hcap : captureIdent X = some g) :
    pat1At ("youtu.be/".data ++ X) = some g := by
  have h5 : stripPrefixL "youtu".data ("youtu.be/".data ++ X) =
      some ('.' :: ("be/".data ++ X)) := by
    show stripPrefixL "youtu".data ("youtu".data ++ ('.' :: ("be/".data ++ X))) = _
    exact stripPrefixL_append _ _
  rw [pat1At_split (matchWatchAt_none (wv_strip_short X)), matchShortAt_stripCons h5,
    if_neg (by decide : ¬ ('.' : Char) = '\n'), beTail_append X, hcap]

theorem wv_strip_embed (X : List Char) :
    stripPrefixL "youtube.com/watch?v=".data ("youtube.com/embed/".data ++ X) = none := by
  show stripPrefixL
      ('y' :: 'o' :: 'u' :: 't' :: 'u' :: 'b' :: 'e' :: '.' :: 'c' :: 'o' :: 'm' :: '/' :: 'w' :: 'a' :: 't' :: 'c' :: 'h' :: '?' :: 'v' :: '=' :: ([] : List Char))
      ('y' :: 'o' :: 'u' :: 't' :: 'u' :: 'b' :: 'e' :: '.' :: 'c' :: 'o' :: 'm' :: '/' :: 'e' :: 'm' :: 'b' :: 'e' :: 'd' :: '/' ::X) = none
  rw [strip_cons_eq, strip_cons_eq, strip_cons_eq, strip_cons_eq, strip_cons_eq,
    strip_cons_eq, strip_cons_eq, strip_cons_eq, strip_cons_eq, strip_cons_eq,
    strip_cons_eq, strip_cons_eq]
  exact strip_cons_ne (by decide)

theorem pat1At_embedNone (X : List Char) :
    pat1At ("youtube.com/embed/".data ++ X) = none := by
  have h5 : stripPrefixL "youtu".data ("youtube.com/embed/".data ++ X) =
      some ('b' :: ('e' :: '.' :: 'c' :: 'o' :: 'm' :: '/' :: 'e' :: 'm' :: 'b' :: 'e' :: 'd' :: '/' ::X)) := by
    show stripPrefixL "youtu".data
      ("youtu".data ++ ('b' :: ('e' :: '.' :: 'c' :: 'o' :: 'm' :: '/' :: 'e' :: 'm' :: 'b' :: 'e' :: 'd' :: '/' ::X))) = _
    exact stripPrefixL_append _ _
  have h6 : stripPrefixL "be/".data ('e' :: '.' :: 'c' :: 'o' :: 'm' :: '/' :: 'e' :: 'm' :: 'b' :: 'e' :: 'd' :: '/' ::X) = none := by
    show stripPrefixL ('b' :: 'e' :: '/' :: ([] : List Char)) _ = none
    exact strip_cons_ne (by decide)
  rw [pat1At_split (matchWatchAt_none (wv_strip_embed X)), matchShortAt_stripCons h5,
    if_neg (by decide : ¬ ('b' : Char) = '\n'), beTail_none h6]

theorem wv_strip_v (X : List Char) :
    stripPrefixL "youtube.com/watch?v=".data ("youtube.com/v/".data ++ X) = none := by
  show stripPrefixL
      ('y' :: 'o' :: 'u' :: 't' :: 'u' :: 'b' :: 'e' :: '.' :: 'c' :: 'o' :: 'm' :: '/' :: 'w' :: 'a' :: 't' :: 'c' :: 'h' :: '?' :: 'v' :: '=' :: ([] : List Char))
      ('y' :: 'o' :: 'u' :: 't' :: 'u' :: 'b' :: 'e' :: '.' :: 'c' :: 'o' :: 'm' :: '/' :: 'v' :: '/' ::X) = none
  rw [strip_cons_eq, strip_cons_eq, strip_cons_eq, strip_cons_eq, strip_cons_eq,
    strip_cons_eq, strip_cons_eq, strip_cons_eq, strip_cons_eq, strip_cons_eq,
    strip_cons_eq, strip_cons_eq]
  exact strip_cons_ne (by decide)

theorem pat1At_vNone (X : List Char) :
    pat1At ("youtube.com/v/".data ++ X) = none := by
  have h5 : stripPrefixL "youtu".data ("youtube.com/v/".data ++ X) =
      some ('b' :: ('e' :: '.' :: 'c' :: 'o' :: 'm' :: '/' :: 'v' :: '/' ::X)) := by
    show stripPrefixL "youtu".data
      ("youtu".data ++ ('b' :: ('e' :: '.' :: 'c' :: 'o' :: 'm' :: '/' :: 'v' :: '/' ::X))) = _
    exact stripPrefixL_append _ _
  have h6 : stripPrefixL "be/".data ('e' :: '.' :: 'c' :: 'o' :: 'm' :: '/' :: 'v' :: '/' ::X) = none := by
    show stripPrefixL ('b' :: 'e' :: '/' :: ([] : List Char)) _ = none
    exact strip_cons_ne (by decide)
  rw [pat1At_split (matchWatchAt_none (wv_strip_v X)), matchShortAt_stripCons h5,
    if_neg (by decide : ¬ ('b' : Char) = '\n'), beTail_none h6]

theorem pat2At_vNone (X : List Char) :
    pat2At ("youtube.com/v/".data ++ X) = none := by
  apply pat2At_eq_none
  show stripPrefixL
      ('y' :: 'o' :: 'u' :: 't' :: 'u' :: 'b' :: 'e' :: '.' :: 'c' :: 'o' :: 'm' :: '/' :: 'e' :: 'm' :: 'b' :: 'e' :: 'd' :: '/' :: ([] : List Char))
      ('y' :: 'o' :: 'u' :: 't' :: 'u' :: 'b' :: 'e' :: '.' :: 'c' :: 'o' :: 'm' :: '/' :: 'v' :: '/' ::X) = none
  rw [strip_cons_eq, strip_cons_eq, strip_cons_eq, strip_cons_eq, strip_cons_eq,
    strip_cons_eq, strip_cons_eq, strip_cons_eq, strip_cons_eq, strip_cons_eq,
    strip_cons_eq, strip_cons_eq]
  exact strip_cons_ne (by decide)

theorem pat2At_embedPos (X g : List Char) (hcap : captureIdent X = some g) :
    pat2At ("youtube.com/embed/".data ++ X) = some g := by
  have h := pat2At_eq_some (stripPrefixL_append "youtube.com/embed/".data X)
  rw [hcap] at h
  exact h

theorem pat3At_vPos (X g : List Char) (hcap : captureIdent X = some g) :
    pat3At ("youtube.com/v/".data ++ X) = some g := by
  have h := pat3At_eq_some (stripPrefixL_append "youtube.com/v/".data X)
  rw [hcap] at h
  exact h

theorem extract_eq_1 {url : String} {g : List Char}
    (h : reSearch pat1At url.data = some g) :
    extract_video_id url = some (String.mk g) := by
  unfold extract_video_id
  rw [h]

theorem extract_eq_2 {url : String} {g : List Char}
    (h1 : reSearch pat1At url.data = none)
    (h2 : reSearch pat2At url.data = some g) :
    extract_video_id url = some (String.mk g) := by
  unfold extract_video_id
  rw [h1, h2]

theorem extract_eq_3 {url : String} {g : List Char}
    (h1 : reSearch pat1At url.data = none)
    (h2 : reSearch pat2At url.data = none)
    (h3 : reSearch pat3At url.data = some g) :
    extract_video_id url = some (String.mk g) := by
  unfold extract_video_id
  rw [h1, h2, h3]

theorem noDotSlash_of_id_rest {id rest : List Char}
    (hid : ∀ c ∈ id, isWordDash c = true) (hrest : restOkB rest = true) :
    ∀ c ∈ id ++ rest, c ≠ '.' ∧ c ≠ '/' := by
  intro c hc
  rcases List.mem_append.mp hc with h | h
  · exact wordDash_not_special c (hid c h)
  · exact restOkB_noDotSlash hrest c h

theorem extract_watch (id rest : List Char) (hne : id ≠ [])
    (hid : ∀ c ∈ id, isWordDash c = true) (hrest : restOkB rest = true) :
    extract_video_id
        (String.mk ("https://www.youtube.com/watch?v=".data ++ (id ++ rest))) =
      some (String.mk id) := by
  have hcap := captureIdent_append id rest hne hid (restOkB_head hrest)
  apply extract_eq_1
  show reSearch pat1At
    ("https://www.".data ++ ("youtube.com/watch?v=".data ++ (id ++ rest))) = some id
  rw [reSearch_skip_no_y (fun c t h => pat1At_head_ne h) _ _ (by decide)]
  exact reSearch_step_some 'y' ("outube.com/watch?v=".data ++ (id ++ rest)) rfl
    (pat1At_watchPos _ _ hcap)

theorem extract_short (id rest : List Char) (hne : id ≠ [])
    (hid : ∀ c ∈ id, isWordDash c = true) (hrest : restOkB rest = true) :
    extract_video_id (String.mk ("https://youtu.be/".data ++ (id ++ rest))) =
      some (String.mk id) := by
  have hcap := captureIdent_append id rest hne hid (restOkB_head hrest)
  apply extract_eq_1
  show reSearch pat1At ("https://".data ++ ("youtu.be/".data ++ (id ++ rest))) = some id
  rw [reSearch_skip_no_y (fun c t h => pat1At_head_ne h) _ _ (by decide)]
  exact reSearch_step_some 'y' ("outu.be/".data ++ (id ++ rest)) rfl
    (pat1At_shortPos _ _ hcap)

theorem extract_embed (id rest : List Char) (hne : id ≠ [])
    (hid : ∀ c ∈ id, isWordDash c = true) (hrest : restOkB rest = true) :
    extract_video_id
        (String.mk ("https://www.youtube.com/embed/".data ++ (id ++ rest))) =
      some (String.mk id) := by
  have hcap := captureIdent_append id rest hne hid (restOkB_head hrest)
  have hY := noDotSlash_of_id_rest hid hrest
  apply extract_eq_2
  · show reSearch pat1At
      ("https://www.".data ++ ("youtube.com/embed/".data ++ (id ++ rest))) = none
    rw [reSearch_skip_no_y (fun c t h => pat1At_head_ne h) _ _ (by decide)]
    show reSearch pat1At ('y' :: ("outube.com/embed/".data ++ (id ++ rest))) = none
    have hstep : reSearch pat1At ('y' :: ("outube.com/embed/".data ++ (id ++ rest))) =
        reSearch pat1At ("outube.com/embed/".data ++ (id ++ rest)) :=
      reSearch_cons_none (pat1At_embedNone (id ++ rest))
    rw [hstep]
    rw [reSearch_skip_no_y (fun c t h => pat1At_head_ne h) "outube.com/embed/".data _
      (by decide)]
    exact reSearch_none_of_all (fun l hl => pat1At_none_noDotSlash hl) _ hY
  · show reSearch pat2At
      ("https://www.".data ++ ("youtube.com/embed/".data ++ (id ++ rest))) = some id
    rw [reSearch_skip_no_y (fun c t h => pat2At_head_ne h) _ _ (by decide)]
    exact reSearch_step_some 'y' ("outube.com/embed/".data ++ (id ++ rest)) rfl
      (pat2At_embedPos _ _ hcap)

theorem extract_vslash (id rest : List Char) (hne : id ≠ [])
    (hid : ∀ c ∈ id, isWordDash c = true) (hrest : restOkB rest = true) :
    extract_video_id
        (String.mk ("https://www.youtube.com/v/".data ++ (id ++ rest))) =
      some (String.mk id) := by
  have hcap := captureIdent_append id rest hne hid (restOkB_head hrest)
  have hY := noDotSlash_of_id_rest hid hrest
  apply extract_eq_3
  · show reSearch pat1At
      ("https://www.".data ++ ("youtube.com/v/".data ++ (id ++ rest))) = none
    rw [reSearch_skip_no_y (fun c t h => pat1At_head_ne h) _ _ (by decide)]
    show reSearch pat1At ('y' :: ("outube.com/v/".data ++ (id ++ rest))) = none
    have hstep : reSearch pat1At ('y' :: ("outube.com/v/".data ++ (id ++ rest))) =
        reSearch pat1At ("outube.com/v/".data ++ (id ++ rest)) :=
      reSearch_cons_none (pat1At_vNone (id ++ rest))
    rw [hstep]
    rw [reSearch_skip_no_y (fun c t h => pat1At_head_ne h) "outube.com/v/".data _
      (by decide)]
    exact reSearch_none_of_all (fun l hl => pat1At_none_noDotSlash hl) _ hY
  · show reSearch pat2At
      ("https://www.".data ++ ("youtube.com/v/".data ++ (id ++ rest))) = none
    rw [reSearch_skip_no_y (fun c t h => pat2At_head_ne h) _ _ (by decide)]
    show reSearch pat2At ('y' :: ("outube.com/v/".data ++ (id ++ rest))) = none
    have hstep2 : reSearch pat2At ('y' :: ("outube.com/v/".data ++ (id ++ rest))) =
        reSearch pat2At ("outube.com/v/".data ++ (id ++ rest)) :=
      reSearch_cons_none (pat2At_vNone (id ++ rest))
    rw [hstep2]
    rw [reSearch_skip_no_y (fun c t h => pat2At_head_ne h) "outube.com/v/".data _
      (by decide)]
    exact reSearch_none_of_all (fun l hl => pat2At_none_noDotSlash hl) _ hY
  · show reSearch pat3At
      ("https://www.".data ++ ("youtube.com/v/".data ++ (id ++ rest))) = some id
    rw [reSearch_skip_no_y (fun c t h => pat3At_head_ne h) _ _ (by decide)]
    exact reSearch_step_some 'y' ("outube.com/v/".data ++ (id ++ rest)) rfl
      (pat3At_vPos _ _ hcap)

/-- Claim C1: for each of the four supported URL shapes carrying an
identifier of word/hyphen characters, `extract_video_id` returns
exactly that identifier; the capture stops at the first character
outside the word/hyphen class, so query-parameter text after the
identifier does not change the result; and the domain tokens are
matched case-sensitively (an uppercased domain yields nothing). -/
theorem C1_url_shapes (id rest : List Char) (hne : id ≠ [])
    (hid : ∀ c ∈ id, isWordDash c = true) (hrest : restOkB rest = true) :
    extract_video_id
        (String.mk ("https://www.youtube.com/watch?v=".data ++ (id ++ rest))) =
      some (String.mk id)
    ∧ extract_video_id (String.mk ("https://youtu.be/".data ++ (id ++ rest))) =
      some (String.mk id)
    ∧ extract_video_id
        (String.mk ("https://www.youtube.com/embed/".data ++ (id ++ rest))) =
      some (String.mk id)
    ∧ extract_video_id
        (String.mk ("https://www.youtube.com/v/".data ++ (id ++ rest))) =
      some (String.mk id)
    ∧ extract_video_id "https://www.YouTube.com/watch?v=dQw4w9WgXcQ" = none :=
  ⟨extract_watch id rest hne hid hrest,
    extract_short id rest hne hid hrest,
    extract_embed id rest hne hid hrest,
    extract_vslash id rest hne hid hrest,
    by decide⟩

theorem C1_witness :
    "dQw4w9WgXcQ".data ≠ []
    ∧ (∀ c ∈ "dQw4w9WgXcQ".data, isWordDash c = true)
    ∧ restOkB "&t=42s".data = true
    ∧ extract_video_id
        (String.mk ("https://www.youtube.com/watch?v=".data ++
          ("dQw4w9WgXcQ".data ++ "&t=42s".data))) =
      some (String.mk "dQw4w9WgXcQ".data) :=
  ⟨by decide, by decide, by decide,
    (C1_url_shapes "dQw4w9WgXcQ".data "&t=42s".data
      (by decide) (by decide) (by decide)).1⟩
